import Mathlib

/-!
Shallow embedding of the Unitree Go2 configuration-derivation core
(`go2_constants.py`): actuator constants, gain derivation, the
pattern-keyed collision override model, and the action-scale map,
together with theorems settling the specification claims.

Python floats are modelled as exact rationals (`ℚ`); fallible code is
modelled with `Option`.  The regex patterns appearing in the
configuration use only literals, character classes, `.` and `.*`, so
they are embedded as a small abstract syntax with full-string matching
semantics.
-/

namespace Go2

/-- Abstract syntax of the regular expressions used by the Go2
configuration: the empty string, a literal string, a character class
such as `[FR]`, the single-character wildcard `.`, the catch-all `.*`,
and concatenation.  Anchors `^`/`$` are identities under full-string
matching and are dropped. -/
inductive Regex : Type where
  | eps : Regex
  | str : List Char → Regex
  | cls : List Char → Regex
  | wild : Regex
  | anystr : Regex
  | seq : Regex → Regex → Regex
deriving DecidableEq, Repr

/-- All ways to split a list into a prefix and a suffix. -/
def splits : List Char → List (List Char × List Char)
  | [] => [([], [])]
  | c :: cs => ([], c :: cs) :: (splits cs).map (fun p => (c :: p.1, p.2))

/-- Full-string matching of a regex against a character list (the
semantics of Python `re.fullmatch` restricted to the fragment above). -/
def Regex.rmatch : Regex → List Char → Bool
  | .eps, s => s.isEmpty
  | .str t, s => s == t
  | .cls cs, s =>
    match s with
    | [c] => cs.contains c
    | _ => false
  | .wild, s =>
    match s with
    | [_] => true
    | _ => false
  | .anystr, _ => true
  | .seq a b, s => (splits s).any fun p => a.rmatch p.1 && b.rmatch p.2

/-! ### The concrete patterns of `go2_constants.py` -/

/-- Embedding of the source pattern `_foot_regex = "^[FR][LR]_foot_collision$"`. -/
def footRegex : Regex :=
  .seq (.cls ['F', 'R']) (.seq (.cls ['L', 'R']) (.str ("_foot_collision".toList)))

/-- Embedding of the source pattern `".*_collision"` under full-string matching. -/
def collisionRegex : Regex := .seq .anystr (.str ("_collision".toList))

/-- The four foot-collision geometry names, used as concrete elements. -/
def flFoot : String := "FL_foot_collision"

def frFoot : String := "FR_foot_collision"

def rlFoot : String := "RL_foot_collision"

def rrFoot : String := "RR_foot_collision"

/-- A non-foot collision geometry name of the Go2 model. -/
def flCalf : String := "FL_calf_collision"

/-- The element `"A"` of the specification's precedence law. -/
def elemA : String := "A"

/-! ### Overridable properties and their resolution -/

/-- The scalar-or-mapping shape of a configurable property
(`OverridableProperty<T>` in the specification): either one scalar for
every matched element, or an ordered pattern-keyed mapping (a Python
`dict` preserves insertion order). -/
inductive Override (α : Type) : Type where
  | scalar : α → Override α
  | patterned : List (Regex × α) → Override α
deriving DecidableEq

/-- Modelled from the spec: the override-resolution step of the Pattern
Selector and Override Resolver (the resolver's code itself is outside
the excerpt).  For one element already matched by the owning selector: a
scalar applies as-is, and a pattern-keyed mapping is scanned in
declaration order, the value of the first key matching the element
winning (`most specific wins` together with any catch-all fallback key
placed later in the mapping); `none` when no key matches. -/
def resolveOverride {α : Type} (e : String) : Override α → Option α
  | .scalar v => some v
  | .patterned entries => (entries.find? fun p => p.1.rmatch e.toList).map Prod.snd

/-- Collision configuration (`CollisionCfg` construction as it appears
in the source): a tuple of geometry selector patterns and per-property
overrides.  `friction` and `solimp` tuples are lists of rationals. -/
structure CollisionCfg where
  geom_names_expr : List Regex
  contype : ℕ
  conaffinity : ℕ
  condim : Override ℕ
  priority : Override ℤ
  friction : Override (List ℚ)
  solimp : Override (List ℚ)
deriving DecidableEq

/-- An element belongs to a collision group iff some selector pattern
matches it. -/
def selectedBy (cfg : CollisionCfg) (e : String) : Bool :=
  cfg.geom_names_expr.any fun r => r.rmatch e.toList

/-- `FEET_ONLY_COLLISION` from the source: scalar properties attached to
the foot geometries only. -/
def FEET_ONLY_COLLISION : CollisionCfg where
  geom_names_expr := [footRegex]
  contype := 0
  conaffinity := 1
  condim := .scalar 3
  priority := .scalar 1
  friction := .scalar [0.6]
  solimp := .scalar [0.9, 0.95, 0.023]

/-- `FULL_COLLISION` from the source: all `_collision` geometries, with
pattern-keyed overrides giving feet `condim=3` (first key) and every
other collision geometry `condim=1` (catch-all second key); `priority`,
`friction` and `solimp` are overridden for feet only. -/
def FULL_COLLISION : CollisionCfg where
  geom_names_expr := [collisionRegex]
  condim := .patterned [(footRegex, 3), (collisionRegex, 1)]
  priority := .patterned [(footRegex, 1)]
  friction := .patterned [(footRegex, [0.6])]
  solimp := .patterned [(footRegex, [0.9, 0.95, 0.023])]
  contype := 1
  conaffinity := 0

/-! ### Actuator model and gain derivation -/

/-- Modelled from the spec: `reflected_inertia(rotor_inertia, gear_ratio)`
from `mjlab.utils.actuator` (outside the excerpt), defined as
`rotor_inertia * gear_ratio**2`, with a domain error (`none`) when
`gear_ratio ≤ 0` or `rotor_inertia < 0`. -/
def reflected_inertia (rotor_inertia gear_ratio : ℚ) : Option ℚ :=
  if gear_ratio ≤ 0 ∨ rotor_inertia < 0 then none
  else some (rotor_inertia * gear_ratio ^ 2)

/-- `ElectricActuator` from `mjlab.utils.actuator`: the fields the
source reads. -/
structure ElectricActuator where
  reflected_inertia : ℚ
  velocity_limit : ℚ
  effort_limit : ℚ
deriving DecidableEq

/-- `ROTOR_INERTIA = 0.000111842` -/
def ROTOR_INERTIA : ℚ := 0.000111842

/-- `HIP_GEAR_RATIO = 6` -/
def HIP_GEAR_RATIO : ℚ := 6

/-- `KNEE_GEAR_RATIO = 12` -/
def KNEE_GEAR_RATIO : ℚ := 12

/-- `HIP_ACTUATOR` from the source (the valid-domain value of the
`reflected_inertia` call is extracted with `getD`). -/
def HIP_ACTUATOR : ElectricActuator where
  reflected_inertia := (reflected_inertia ROTOR_INERTIA HIP_GEAR_RATIO).getD 0
  velocity_limit := 30.1
  effort_limit := 23.7

/-- `KNEE_ACTUATOR` from the source. -/
def KNEE_ACTUATOR : ElectricActuator where
  reflected_inertia := (reflected_inertia ROTOR_INERTIA KNEE_GEAR_RATIO).getD 0
  velocity_limit := 15.70
  effort_limit := 45.43

/-- `NATURAL_FREQ = 10.0 * 2.0 * 3.1415926535` (rad/s). -/
def NATURAL_FREQ : ℚ := 10.0 * 2.0 * 3.1415926535

/-- `DAMPING_RATIO = 2.0` -/
def DAMPING_RATIO : ℚ := 2.0

/-- `STIFFNESS_HIP = HIP_ACTUATOR.reflected_inertia * NATURAL_FREQ ** 2` -/
def STIFFNESS_HIP : ℚ := HIP_ACTUATOR.reflected_inertia * NATURAL_FREQ ^ 2

/-- `DAMPING_HIP = 2 * DAMPING_RATIO * HIP_ACTUATOR.reflected_inertia * NATURAL_FREQ` -/
def DAMPING_HIP : ℚ := 2 * DAMPING_RATIO * HIP_ACTUATOR.reflected_inertia * NATURAL_FREQ

/-- `STIFFNESS_KNEE = KNEE_ACTUATOR.reflected_inertia * NATURAL_FREQ ** 2` -/
def STIFFNESS_KNEE : ℚ := KNEE_ACTUATOR.reflected_inertia * NATURAL_FREQ ^ 2

/-- `DAMPING_KNEE = 2 * DAMPING_RATIO * KNEE_ACTUATOR.reflected_inertia * NATURAL_FREQ` -/
def DAMPING_KNEE : ℚ := 2 * DAMPING_RATIO * KNEE_ACTUATOR.reflected_inertia * NATURAL_FREQ

/-- Modelled from the spec: `derive_gains(actuator_inertia, natural_freq_rad_s,
damping_ratio)` of the Gain Derivation component (the excerpt inlines
the two formulas): `stiffness = inertia·ω²`, `damping = 2·ζ·inertia·ω`,
with a domain error (`none`) on non-positive inertia or frequency or a
negative damping ratio. -/
def derive_gains (inertia natural_freq_rad_s damping_ratio : ℚ) : Option (ℚ × ℚ) :=
  if inertia ≤ 0 ∨ natural_freq_rad_s ≤ 0 ∨ damping_ratio < 0 then none
  else some (inertia * natural_freq_rad_s ^ 2,
    2 * damping_ratio * inertia * natural_freq_rad_s)

/-! ### Actuator group configs and the action-scale map -/

/-- The fields of `BuiltinPositionActuatorCfg` that the source sets and
the action-scale loop reads.  `effort_limit` is optional in the config
class (the loop asserts it is present). -/
structure BuiltinPositionActuatorCfg where
  joint_names_expr : List String
  stiffness : ℚ
  damping : ℚ
  effort_limit : Option ℚ
  armature : ℚ
deriving DecidableEq

/-- The joint-pattern key `".*_hip_joint"`. -/
def hipJointPat : String := ".*_hip_joint"

/-- The joint-pattern key `".*_thigh_joint"`. -/
def thighJointPat : String := ".*_thigh_joint"

/-- The joint-pattern key `".*_calf_joint"`. -/
def calfJointPat : String := ".*_calf_joint"

/-- `GO2_HIP_ACTUATOR_CFG` from the source. -/
def GO2_HIP_ACTUATOR_CFG : BuiltinPositionActuatorCfg where
  joint_names_expr := [hipJointPat, thighJointPat]
  stiffness := STIFFNESS_HIP
  damping := DAMPING_HIP
  effort_limit := some HIP_ACTUATOR.effort_limit
  armature := HIP_ACTUATOR.reflected_inertia

/-- `GO2_KNEE_ACTUATOR_CFG` from the source. -/
def GO2_KNEE_ACTUATOR_CFG : BuiltinPositionActuatorCfg where
  joint_names_expr := [calfJointPat]
  stiffness := STIFFNESS_KNEE
  damping := DAMPING_KNEE
  effort_limit := some KNEE_ACTUATOR.effort_limit
  armature := KNEE_ACTUATOR.reflected_inertia

/-- The fields of `EntityArticulationInfoCfg` the excerpt sets. -/
structure EntityArticulationInfoCfg where
  actuators : List BuiltinPositionActuatorCfg
  soft_joint_pos_limit_factor : ℚ
deriving DecidableEq

/-- `GO2_ARTICULATION` from the source. -/
def GO2_ARTICULATION : EntityArticulationInfoCfg where
  actuators := [GO2_HIP_ACTUATOR_CFG, GO2_KNEE_ACTUATOR_CFG]
  soft_joint_pos_limit_factor := 0.9

/-- Python `dict` assignment `m[k] = v`: overwrite in place when the key
exists, else append (insertion order is preserved). -/
def dictInsert (m : List (String × ℚ)) (k : String) (v : ℚ) : List (String × ℚ) :=
  if m.any (fun p => p.1 == k) then m.map (fun p => if p.1 = k then (k, v) else p)
  else m ++ [(k, v)]

/-- One iteration of the action-scale loop body over one actuator group:
`assert e is not None` fails when `effort_limit` is absent, the division
`e / s` raises `ZeroDivisionError` when the stiffness is zero, and
otherwise every joint pattern of the group is assigned
`ACTION_SCALE_MULTIPLIER * (e / s)`. -/
def actionScaleStep (mult : ℚ) (m : List (String × ℚ)) (a : BuiltinPositionActuatorCfg) :
    Option (List (String × ℚ)) :=
  match a.effort_limit with
  | none => none
  | some e =>
    if a.stiffness = 0 then none
    else some (a.joint_names_expr.foldl (fun acc n => dictInsert acc n (mult * (e / a.stiffness))) m)

/-- The `for a in GO2_ARTICULATION.actuators` loop, starting from the
empty dict. -/
def deriveActionScale (mult : ℚ) (acts : List BuiltinPositionActuatorCfg) :
    Option (List (String × ℚ)) :=
  acts.foldlM (actionScaleStep mult) []

/-- `ACTION_SCALE_MULTIPLIER = 0.25` -/
def ACTION_SCALE_MULTIPLIER : ℚ := 0.25

/-- `GO2_ACTION_SCALE` as built by the loop at the bottom of the source
file (`none` would mean the construction raised). -/
def GO2_ACTION_SCALE : Option (List (String × ℚ)) :=
  deriveActionScale ACTION_SCALE_MULTIPLIER GO2_ARTICULATION.actuators

/-- Lookup of one joint pattern in the derived action-scale map. -/
def go2ActionScaleAt (p : String) : Option ℚ :=
  GO2_ACTION_SCALE.bind fun m => m.lookup p

/-- A hypothetical actuator group with negative stiffness, used to probe
the failure behaviour of the action-scale loop. -/
def negStiffCfg : BuiltinPositionActuatorCfg where
  joint_names_expr := [hipJointPat]
  stiffness := -1
  damping := 0
  effort_limit := some 1
  armature := 0

/-- A hypothetical actuator group whose `effort_limit` is absent. -/
def noEffortCfg : BuiltinPositionActuatorCfg where
  joint_names_expr := [hipJointPat]
  stiffness := 1
  damping := 0
  effort_limit := none
  armature := 0

/-- A hypothetical actuator group with zero stiffness. -/
def zeroStiffCfg : BuiltinPositionActuatorCfg where
  joint_names_expr := [hipJointPat]
  stiffness := 0
  damping := 0
  effort_limit := some 1
  armature := 0

/-!
## Theorems

First the helper lemmas about the regex matcher and the derived
constants, then one theorem per specification claim.
-/

theorem mem_splits {s : List Char} {p : List Char × List Char} :
    p ∈ splits s ↔ s = p.1 ++ p.2 := by
  induction s generalizing p with
  | nil =>
    rcases p with ⟨u, v⟩
    simp only [splits, List.mem_singleton, Prod.mk.injEq]
    constructor
    · rintro ⟨rfl, rfl⟩; rfl
    · intro h
      rcases u with _ | ⟨c, u⟩
      · simpa using h.symm
      · simp at h
  | cons c cs ih =>
    rcases p with ⟨u, v⟩
    simp only [splits, List.mem_cons, List.mem_map, Prod.mk.injEq]
    constructor
    · rintro (⟨rfl, rfl⟩ | ⟨⟨u', v'⟩, hmem, rfl, rfl⟩)
      · rfl
      · simpa using (ih.mp hmem)
    · intro h
      rcases u with _ | ⟨d, u⟩
      · exact Or.inl ⟨rfl, h.symm⟩
      · simp only [List.cons_append, List.cons.injEq] at h
        exact Or.inr ⟨⟨u, v⟩, ih.mpr h.2, by simp [h.1]⟩

theorem rmatch_seq {a b : Regex} {s : List Char} :
    (Regex.seq a b).rmatch s = true ↔
      ∃ u v, s = u ++ v ∧ a.rmatch u = true ∧ b.rmatch v = true := by
  simp only [Regex.rmatch, List.any_eq_true]
  constructor
  · rintro ⟨⟨u, v⟩, hmem, hp⟩
    simp only [Bool.and_eq_true] at hp
    exact ⟨u, v, mem_splits.mp hmem, hp.1, hp.2⟩
  · rintro ⟨u, v, rfl, ha, hb⟩
    exact ⟨⟨u, v⟩, mem_splits.mpr rfl, by simp [ha, hb]⟩

theorem rmatch_str {t s : List Char} :
    (Regex.str t).rmatch s = true ↔ s = t := by
  simp [Regex.rmatch]

theorem rmatch_cls {cs s : List Char} :
    (Regex.cls cs).rmatch s = true ↔ ∃ c, s = [c] ∧ cs.contains c = true := by
  rcases s with _ | ⟨c, _ | ⟨d, t⟩⟩ <;> simp [Regex.rmatch]

theorem rmatch_anystr {s : List Char} : Regex.anystr.rmatch s = true := by
  simp [Regex.rmatch]

/-- The language of `footRegex` is exactly the four foot-collision names. -/
theorem footRegex_language (s : List Char) :
    footRegex.rmatch s = true ↔
      s = flFoot.toList ∨ s = frFoot.toList ∨ s = rlFoot.toList ∨ s = rrFoot.toList := by
  constructor
  · intro h
    rw [footRegex, rmatch_seq] at h
    obtain ⟨u, v, rfl, hu, hv⟩ := h
    rw [rmatch_cls] at hu
    obtain ⟨c1, rfl, hc1⟩ := hu
    rw [rmatch_seq] at hv
    obtain ⟨u2, v2, rfl, hu2, hv2⟩ := hv
    rw [rmatch_cls] at hu2
    obtain ⟨c2, rfl, hc2⟩ := hu2
    rw [rmatch_str] at hv2
    subst hv2
    have h1 : c1 = 'F' ∨ c1 = 'R' := by simpa using hc1
    have h2 : c2 = 'L' ∨ c2 = 'R' := by simpa using hc2
    rcases h1 with rfl | rfl <;> rcases h2 with rfl | rfl <;> simp [flFoot, frFoot, rlFoot, rrFoot]
  · rintro (rfl | rfl | rfl | rfl) <;> decide

/-- Every foot-collision name also matches the umbrella pattern `".*_collision"`. -/
theorem footRegex_matches_collision {s : List Char} (h : footRegex.rmatch s = true) :
    collisionRegex.rmatch s = true := by
  rcases (footRegex_language s).mp h with rfl | rfl | rfl | rfl <;> decide

theorem stiffness_hip_ne_zero : STIFFNESS_HIP ≠ 0 := by
  norm_num [STIFFNESS_HIP, HIP_ACTUATOR, reflected_inertia, ROTOR_INERTIA,
    HIP_GEAR_RATIO, NATURAL_FREQ]

theorem stiffness_knee_ne_zero : STIFFNESS_KNEE ≠ 0 := by
  norm_num [STIFFNESS_KNEE, KNEE_ACTUATOR, reflected_inertia, ROTOR_INERTIA,
    KNEE_GEAR_RATIO, NATURAL_FREQ]

/-- The value of the action-scale map, with the per-group scales kept in
the source's `multiplier * (effort_limit / stiffness)` shape. -/
theorem go2_action_scale_eq :
    GO2_ACTION_SCALE =
      some [(hipJointPat, ACTION_SCALE_MULTIPLIER * (23.7 / STIFFNESS_HIP)),
        (thighJointPat, ACTION_SCALE_MULTIPLIER * (23.7 / STIFFNESS_HIP)),
        (calfJointPat, ACTION_SCALE_MULTIPLIER * (45.43 / STIFFNESS_KNEE))] := by
  simp [GO2_ACTION_SCALE, deriveActionScale, GO2_ARTICULATION, actionScaleStep,
    GO2_HIP_ACTUATOR_CFG, GO2_KNEE_ACTUATOR_CFG, HIP_ACTUATOR, KNEE_ACTUATOR,
    dictInsert, stiffness_hip_ne_zero, stiffness_knee_ne_zero,
    hipJointPat, thighJointPat, calfJointPat, List.foldlM]

/-- C1: for every valid input (inertia > 0, ω > 0, ζ ≥ 0) gain
derivation returns stiffness `i·ω²` and damping `2·ζ·i·ω` exactly, and
the Go2 stiffness/damping constants are exactly these formulas at the
hip and knee reflected inertias. -/
theorem derive_gains_exact :
    (∀ i ω ζ : ℚ, 0 < i → 0 < ω → 0 ≤ ζ →
      derive_gains i ω ζ = some (i * ω ^ 2, 2 * ζ * i * ω)) ∧
    STIFFNESS_HIP = HIP_ACTUATOR.reflected_inertia * NATURAL_FREQ ^ 2 ∧
    DAMPING_HIP = 2 * DAMPING_RATIO * HIP_ACTUATOR.reflected_inertia * NATURAL_FREQ ∧
    STIFFNESS_KNEE = KNEE_ACTUATOR.reflected_inertia * NATURAL_FREQ ^ 2 ∧
    DAMPING_KNEE = 2 * DAMPING_RATIO * KNEE_ACTUATOR.reflected_inertia * NATURAL_FREQ := by
  refine ⟨fun i ω ζ hi hω hζ => ?_, rfl, rfl, rfl, rfl⟩
  rw [derive_gains, if_neg]
  push_neg
  exact ⟨hi, hω, hζ⟩

/-- Witness for C1 at the concrete input `(2, 3, 1)`. -/
theorem derive_gains_exact_witness :
    derive_gains 2 3 1 = some (2 * 3 ^ 2, 2 * 1 * 2 * 3) :=
  derive_gains_exact.1 2 3 1 (by norm_num) (by norm_num) (by norm_num)

/-- C5: `reflected_inertia` equals `rotor_inertia * gear_ratio ** 2` on
the valid domain, fails with a domain error outside it, and the hip and
knee actuators carry `0.000111842 * 6²` and `0.000111842 * 12²`. -/
theorem reflected_inertia_contract :
    (∀ r g : ℚ, 0 ≤ r → 0 < g → reflected_inertia r g = some (r * g ^ 2)) ∧
    (∀ r g : ℚ, g ≤ 0 ∨ r < 0 → reflected_inertia r g = none) ∧
    HIP_ACTUATOR.reflected_inertia = 0.000111842 * 6 ^ 2 ∧
    KNEE_ACTUATOR.reflected_inertia = 0.000111842 * 12 ^ 2 := by
  refine ⟨fun r g hr hg => ?_, fun r g h => ?_, ?_, ?_⟩
  · rw [reflected_inertia, if_neg]
    push_neg
    exact ⟨hg, hr⟩
  · rw [reflected_inertia, if_pos h]
  · norm_num [HIP_ACTUATOR, reflected_inertia, ROTOR_INERTIA, HIP_GEAR_RATIO]
  · norm_num [KNEE_ACTUATOR, reflected_inertia, ROTOR_INERTIA, KNEE_GEAR_RATIO]

/-- Witness for C5 at the concrete inputs `(1, 2)` and `(1, -1)`. -/
theorem reflected_inertia_contract_witness :
    reflected_inertia 1 2 = some (1 * 2 ^ 2) ∧ reflected_inertia 1 (-1) = none :=
  ⟨reflected_inertia_contract.1 1 2 (by norm_num) (by norm_num),
    reflected_inertia_contract.2.1 1 (-1) (Or.inl (by norm_num))⟩

/-- C7: gains scale by the reflected-inertia ratio at fixed
`(natural_freq, damping_ratio)`; in particular the knee reflected
inertia is 4 times the hip one (gear ratios 12 vs 6), so the knee
stiffness and damping are 4 times the hip ones. -/
theorem gains_scale_consistently :
    (∀ i k ω ζ : ℚ, 0 < i → 0 < k → 0 < ω → 0 ≤ ζ →
      derive_gains (k * i) ω ζ =
        (derive_gains i ω ζ).map fun p => (k * p.1, k * p.2)) ∧
    KNEE_ACTUATOR.reflected_inertia = 4 * HIP_ACTUATOR.reflected_inertia ∧
    STIFFNESS_KNEE = 4 * STIFFNESS_HIP ∧
    DAMPING_KNEE = 4 * DAMPING_HIP := by
  refine ⟨fun i k ω ζ hi hk hω hζ => ?_, ?_, ?_, ?_⟩
  · have h1 : ¬(k * i ≤ 0 ∨ ω ≤ 0 ∨ ζ < 0) := by
      push_neg
      exact ⟨mul_pos hk hi, hω, hζ⟩
    have h2 : ¬(i ≤ 0 ∨ ω ≤ 0 ∨ ζ < 0) := by
      push_neg
      exact ⟨hi, hω, hζ⟩
    rw [derive_gains, derive_gains, if_neg h1, if_neg h2]
    simp only [Option.map_some', Option.some.injEq, Prod.mk.injEq]
    constructor <;> ring
  · norm_num [HIP_ACTUATOR, KNEE_ACTUATOR, reflected_inertia, ROTOR_INERTIA,
      HIP_GEAR_RATIO, KNEE_GEAR_RATIO]
  · norm_num [STIFFNESS_HIP, STIFFNESS_KNEE, HIP_ACTUATOR, KNEE_ACTUATOR,
      reflected_inertia, ROTOR_INERTIA, HIP_GEAR_RATIO, KNEE_GEAR_RATIO, NATURAL_FREQ]
  · norm_num [DAMPING_HIP, DAMPING_KNEE, HIP_ACTUATOR, KNEE_ACTUATOR, reflected_inertia,
      ROTOR_INERTIA, HIP_GEAR_RATIO, KNEE_GEAR_RATIO, NATURAL_FREQ, DAMPING_RATIO]

/-- Witness for C7 at the concrete input `i = 1, k = 2, ω = 3, ζ = 0`. -/
theorem gains_scale_consistently_witness :
    derive_gains (2 * 1) 3 0 = (derive_gains 1 3 0).map fun p => (2 * p.1, 2 * p.2) :=
  gains_scale_consistently.1 1 2 3 0 (by norm_num) (by norm_num) (by norm_num) (by norm_num)

/-- C6: the key list of the derived action-scale map is exactly the
three joint patterns of the two Go2 actuator groups, in insertion
order, and every pattern of every group occurs exactly once. -/
theorem action_scale_keys_exact :
    (GO2_ACTION_SCALE.map fun m => m.map Prod.fst) =
      some [hipJointPat, thighJointPat, calfJointPat] ∧
    ∀ a ∈ GO2_ARTICULATION.actuators, ∀ n ∈ a.joint_names_expr,
      (GO2_ACTION_SCALE.map fun m => (m.map Prod.fst).count n) = some 1 := by
  rw [go2_action_scale_eq]
  refine ⟨rfl, ?_⟩
  intro a ha n hn
  simp only [GO2_ARTICULATION, List.mem_cons, List.not_mem_nil, or_false] at ha
  rcases ha with rfl | rfl
  · simp only [GO2_HIP_ACTUATOR_CFG, List.mem_cons, List.not_mem_nil, or_false] at hn
    rcases hn with rfl | rfl <;> decide
  · simp only [GO2_KNEE_ACTUATOR_CFG, List.mem_cons, List.not_mem_nil, or_false] at hn
    subst hn
    decide

/-- Witness for C6 at the hip group and the pattern `".*_hip_joint"`. -/
theorem action_scale_keys_exact_witness :
    (GO2_ACTION_SCALE.map fun m => (m.map Prod.fst).count hipJointPat) = some 1 :=
  action_scale_keys_exact.2 GO2_HIP_ACTUATOR_CFG (List.mem_cons_self _ _)
    hipJointPat (List.mem_cons_self _ _)

/-- C8 counterexample: an actuator group with stiffness `-1 ≤ 0` does
not make the action-scale derivation fail; it yields a (negative)
scale. -/
theorem action_scale_negative_stiffness_no_failure :
    negStiffCfg.stiffness ≤ 0 ∧
    deriveActionScale ACTION_SCALE_MULTIPLIER [negStiffCfg] =
      some [(hipJointPat, ACTION_SCALE_MULTIPLIER * (1 / (-1 : ℚ)))] := by
  constructor
  · norm_num [negStiffCfg]
  · simp [deriveActionScale, actionScaleStep, negStiffCfg, dictInsert, List.foldlM]

/-- C8 as amended: the loop computes
`multiplier * (effort_limit / stiffness)` for every joint pattern of
every group, and fails when an `effort_limit` is absent or a stiffness
is zero (but not when it is merely negative). -/
theorem action_scale_derivation_spec :
    (∀ (mult : ℚ) (a : BuiltinPositionActuatorCfg) (rest : List BuiltinPositionActuatorCfg),
      a.effort_limit = none → deriveActionScale mult (a :: rest) = none) ∧
    (∀ (mult : ℚ) (a : BuiltinPositionActuatorCfg) (rest : List BuiltinPositionActuatorCfg),
      a.stiffness = 0 → deriveActionScale mult (a :: rest) = none) ∧
    GO2_ACTION_SCALE =
      some [(hipJointPat, ACTION_SCALE_MULTIPLIER * (23.7 / STIFFNESS_HIP)),
        (thighJointPat, ACTION_SCALE_MULTIPLIER * (23.7 / STIFFNESS_HIP)),
        (calfJointPat, ACTION_SCALE_MULTIPLIER * (45.43 / STIFFNESS_KNEE))] := by
  refine ⟨fun mult a rest h => ?_, fun mult a rest h => ?_, go2_action_scale_eq⟩
  · simp [deriveActionScale, List.foldlM, actionScaleStep, h]
  · cases he : a.effort_limit <;>
      simp [deriveActionScale, List.foldlM, actionScaleStep, he, h]

/-- Witness for C8 at a group without effort limit and a group with
zero stiffness. -/
theorem action_scale_derivation_spec_witness :
    deriveActionScale 1 [noEffortCfg] = none ∧ deriveActionScale 1 [zeroStiffCfg] = none :=
  ⟨action_scale_derivation_spec.1 1 noEffortCfg [] rfl,
    action_scale_derivation_spec.2.1 1 zeroStiffCfg [] rfl⟩

/-- String version of `footRegex_language`. -/
theorem footRegex_language_str (s : String) :
    footRegex.rmatch s.toList = true ↔
      s = flFoot ∨ s = frFoot ∨ s = rlFoot ∨ s = rrFoot := by
  rw [footRegex_language]
  constructor
  · rintro (h | h | h | h)
    · exact Or.inl (String.ext h)
    · exact Or.inr (Or.inl (String.ext h))
    · exact Or.inr (Or.inr (Or.inl (String.ext h)))
    · exact Or.inr (Or.inr (Or.inr (String.ext h)))
  · rintro (rfl | rfl | rfl | rfl) <;> simp

/-- C2: override resolution is most-specific-wins: with the overrides
`{"^A$": 1, ".*": 2}` the element `"A"` resolves to `1`, never `2`; and
under `FULL_COLLISION`'s condim mapping every geometry matching the
foot pattern resolves to condim `3`, never `1`. -/
theorem override_most_specific_wins :
    resolveOverride elemA
        (Override.patterned [(Regex.str (elemA.toList), 1), (Regex.anystr, 2)]) = some 1 ∧
    ∀ s : String, footRegex.rmatch s.toList = true →
      resolveOverride s FULL_COLLISION.condim = some 3 ∧
      resolveOverride s FULL_COLLISION.condim ≠ some 1 := by
  refine ⟨by decide, fun s hs => ?_⟩
  have hs' : footRegex.rmatch s.data = true := hs
  have h3 : resolveOverride s FULL_COLLISION.condim = some 3 := by
    simp [resolveOverride, FULL_COLLISION, List.find?, hs']
  refine ⟨h3, ?_⟩
  rw [h3]
  simp

/-- Witness for C2 at the concrete geometry `"FL_foot_collision"`. -/
theorem override_most_specific_wins_witness :
    resolveOverride flFoot FULL_COLLISION.condim = some 3 ∧
    resolveOverride flFoot FULL_COLLISION.condim ≠ some 1 :=
  override_most_specific_wins.2 flFoot (by decide)

/-- C3 counterexample: `"FL_calf_collision"` matches `".*_collision"`
but is assigned no friction, no solimp and no priority by
`FULL_COLLISION`, so not every such geometry is assigned all four
properties. -/
theorem full_collision_calf_missing_overrides :
    collisionRegex.rmatch (flCalf.toList) = true ∧
    resolveOverride flCalf FULL_COLLISION.friction = none ∧
    resolveOverride flCalf FULL_COLLISION.solimp = none ∧
    resolveOverride flCalf FULL_COLLISION.priority = none :=
  ⟨by decide, rfl, rfl, rfl⟩

/-- C3 as amended: every geometry matching `".*_collision"` is selected
by `FULL_COLLISION` and assigned a condim (`3` on feet, `1` elsewhere);
the priority, friction and solimp overrides apply exactly to the foot
geometries; in particular `"FL_foot_collision"` receives `condim = 3`
and `priority = 1` while `"FL_calf_collision"` receives `condim = 1`
and no explicit priority override. -/
theorem full_collision_coverage :
    (∀ s : String, collisionRegex.rmatch s.toList = true →
      selectedBy FULL_COLLISION s = true ∧
      (resolveOverride s FULL_COLLISION.condim).isSome = true) ∧
    (∀ s : String, footRegex.rmatch s.toList = true →
      resolveOverride s FULL_COLLISION.condim = some 3 ∧
      resolveOverride s FULL_COLLISION.priority = some 1 ∧
      resolveOverride s FULL_COLLISION.friction = some [0.6] ∧
      resolveOverride s FULL_COLLISION.solimp = some [0.9, 0.95, 0.023]) ∧
    (∀ s : String, collisionRegex.rmatch s.toList = true →
      footRegex.rmatch s.toList = false →
      resolveOverride s FULL_COLLISION.condim = some 1 ∧
      resolveOverride s FULL_COLLISION.priority = none ∧
      resolveOverride s FULL_COLLISION.friction = none ∧
      resolveOverride s FULL_COLLISION.solimp = none) ∧
    resolveOverride flCalf FULL_COLLISION.condim = some 1 ∧
    resolveOverride flCalf FULL_COLLISION.priority = none := by
  refine ⟨fun s h => ?_, fun s h => ?_, fun s h hf => ?_, by decide, rfl⟩
  · have h' : collisionRegex.rmatch s.data = true := h
    constructor
    · simp [selectedBy, FULL_COLLISION, h']
    · cases hf : footRegex.rmatch s.data <;>
        simp [resolveOverride, FULL_COLLISION, List.find?, hf, h']
  · rcases (footRegex_language_str s).mp h with rfl | rfl | rfl | rfl <;>
      exact ⟨by decide, by decide, rfl, rfl⟩
  · have h' : collisionRegex.rmatch s.data = true := h
    have hf' : footRegex.rmatch s.data = false := hf
    simp [resolveOverride, FULL_COLLISION, List.find?, hf', h']

/-- Witness for C3 at the geometries `"FL_foot_collision"` and
`"FL_calf_collision"`. -/
theorem full_collision_coverage_witness :
    (resolveOverride flFoot FULL_COLLISION.condim = some 3 ∧
      resolveOverride flFoot FULL_COLLISION.priority = some 1 ∧
      resolveOverride flFoot FULL_COLLISION.friction = some [0.6] ∧
      resolveOverride flFoot FULL_COLLISION.solimp = some [0.9, 0.95, 0.023]) ∧
    resolveOverride flCalf FULL_COLLISION.condim = some 1 ∧
    resolveOverride flCalf FULL_COLLISION.priority = none ∧
    resolveOverride flCalf FULL_COLLISION.friction = none ∧
    resolveOverride flCalf FULL_COLLISION.solimp = none :=
  ⟨full_collision_coverage.2.1 flFoot (by decide),
    full_collision_coverage.2.2.1 flCalf (by decide) (by decide)⟩

/-- C9: on every geometry matching the foot pattern, `FULL_COLLISION`
resolves condim, priority, friction and solimp to exactly
`FEET_ONLY_COLLISION`'s scalar values `3`, `1`, `(0.6,)` and
`(0.9, 0.95, 0.023)`. -/
theorem feet_collision_refinement :
    ∀ s : String, footRegex.rmatch s.toList = true →
      selectedBy FULL_COLLISION s = true ∧
      selectedBy FEET_ONLY_COLLISION s = true ∧
      resolveOverride s FULL_COLLISION.condim = resolveOverride s FEET_ONLY_COLLISION.condim ∧
      resolveOverride s FULL_COLLISION.priority =
        resolveOverride s FEET_ONLY_COLLISION.priority ∧
      resolveOverride s FULL_COLLISION.friction =
        resolveOverride s FEET_ONLY_COLLISION.friction ∧
      resolveOverride s FULL_COLLISION.solimp = resolveOverride s FEET_ONLY_COLLISION.solimp ∧
      resolveOverride s FULL_COLLISION.condim = some 3 ∧
      resolveOverride s FULL_COLLISION.priority = some 1 ∧
      resolveOverride s FULL_COLLISION.friction = some [0.6] ∧
      resolveOverride s FULL_COLLISION.solimp = some [0.9, 0.95, 0.023] := by
  intro s hs
  rcases (footRegex_language_str s).mp hs with rfl | rfl | rfl | rfl <;>
    exact ⟨by decide, by decide, by decide, by decide, rfl, rfl, by decide, by decide, rfl, rfl⟩

/-- Witness for C9 at the concrete geometry `"FL_foot_collision"`. -/
theorem feet_collision_refinement_witness :
    selectedBy FULL_COLLISION flFoot = true ∧
    selectedBy FEET_ONLY_COLLISION flFoot = true ∧
    resolveOverride flFoot FULL_COLLISION.condim =
      resolveOverride flFoot FEET_ONLY_COLLISION.condim ∧
    resolveOverride flFoot FULL_COLLISION.priority =
      resolveOverride flFoot FEET_ONLY_COLLISION.priority ∧
    resolveOverride flFoot FULL_COLLISION.friction =
      resolveOverride flFoot FEET_ONLY_COLLISION.friction ∧
    resolveOverride flFoot FULL_COLLISION.solimp =
      resolveOverride flFoot FEET_ONLY_COLLISION.solimp ∧
    resolveOverride flFoot FULL_COLLISION.condim = some 3 ∧
    resolveOverride flFoot FULL_COLLISION.priority = some 1 ∧
    resolveOverride flFoot FULL_COLLISION.friction = some [0.6] ∧
    resolveOverride flFoot FULL_COLLISION.solimp = some [0.9, 0.95, 0.023] :=
  feet_collision_refinement flFoot (by decide)

/-- C4: the computed action scale for `".*_hip_joint"` equals
`0.25 * 23.7 / STIFFNESS_HIP` exactly in rational arithmetic, and lies
within `1e-9` relative tolerance of the ideal scale
`0.25 * 23.7 / (reflected_inertia · (2π·10)²)` computed with the true
`π` (the code's `NATURAL_FREQ = 10.0 * 2.0 * 3.1415926535`
approximates `2π·10`). -/
theorem action_scale_hip_numerics :
    go2ActionScaleAt hipJointPat =
      some (ACTION_SCALE_MULTIPLIER * 23.7 / STIFFNESS_HIP) ∧
    |((ACTION_SCALE_MULTIPLIER * 23.7 / STIFFNESS_HIP : ℚ) : ℝ) -
        0.25 * 23.7 / ((HIP_ACTUATOR.reflected_inertia : ℝ) * (2 * Real.pi * 10) ^ 2)| ≤
      1e-9 * (0.25 * 23.7 /
        ((HIP_ACTUATOR.reflected_inertia : ℝ) * (2 * Real.pi * 10) ^ 2)) := by
  constructor
  · rw [go2ActionScaleAt, go2_action_scale_eq]
    simp [List.lookup, hipJointPat, thighJointPat, calfJointPat, mul_div_assoc]
  · have hS : STIFFNESS_HIP =
        19869053316543651274994961 / 1250000000000000000000000 := by
      norm_num [STIFFNESS_HIP, HIP_ACTUATOR, reflected_inertia, ROTOR_INERTIA,
        HIP_GEAR_RATIO, NATURAL_FREQ]
    have hq' : (ACTION_SCALE_MULTIPLIER * 23.7 / STIFFNESS_HIP : ℚ) =
        2468750000000000000000000 / 6623017772181217091664987 := by
      rw [hS]
      norm_num [ACTION_SCALE_MULTIPLIER]
    have hq : ((ACTION_SCALE_MULTIPLIER * 23.7 / STIFFNESS_HIP : ℚ) : ℝ) =
        2468750000000000000000000 / 6623017772181217091664987 := by
      rw [hq']
      push_cast
      ring
    have hA' : HIP_ACTUATOR.reflected_inertia = (503289 / 125000000 : ℚ) := by
      norm_num [HIP_ACTUATOR, reflected_inertia, ROTOR_INERTIA, HIP_GEAR_RATIO]
    have hA : ((HIP_ACTUATOR.reflected_inertia : ℚ) : ℝ) = 503289 / 125000000 := by
      rw [hA']
      push_cast
      ring
    rw [hq, hA]
    have hw : ((503289 / 125000000 : ℝ)) * (2 * Real.pi * 10) ^ 2 =
        503289 / 125000000 * 400 * Real.pi ^ 2 := by ring
    rw [hw]
    have hpi1 : (3.14159265358979323846 : ℝ) < Real.pi := Real.pi_gt_d20
    have hpi2 : Real.pi < 3.14159265358979323847 := Real.pi_lt_d20
    have hpi0 : (0 : ℝ) < Real.pi := Real.pi_pos
    have hL : (0.25 * 23.7 : ℝ) /
          (503289 / 125000000 * 400 * (3.14159265358979323847 : ℝ) ^ 2) ≤
        0.25 * 23.7 / (503289 / 125000000 * 400 * Real.pi ^ 2) := by
      gcongr
    have hU : (0.25 * 23.7 : ℝ) / (503289 / 125000000 * 400 * Real.pi ^ 2) ≤
        0.25 * 23.7 / (503289 / 125000000 * 400 * (3.14159265358979323846 : ℝ) ^ 2) := by
      gcongr
    rw [abs_sub_le_iff]
    constructor
    · have hQL : (2468750000000000000000000 / 6623017772181217091664987 : ℝ) -
          0.25 * 23.7 / (503289 / 125000000 * 400 * (3.14159265358979323847 : ℝ) ^ 2) ≤
          1e-9 * (0.25 * 23.7 /
            (503289 / 125000000 * 400 * (3.14159265358979323847 : ℝ) ^ 2)) := by
        norm_num
      linarith [hL, hQL]
    · have hQU : (1 - 1e-9) * ((0.25 * 23.7 : ℝ) /
            (503289 / 125000000 * 400 * (3.14159265358979323846 : ℝ) ^ 2)) ≤
          2468750000000000000000000 / 6623017772181217091664987 := by
        norm_num
      linarith [hU, hQU]

/-- C10: the hip and thigh joint patterns, which belong to the same
actuator group, receive the identical action-scale value. -/
theorem action_scale_shared_within_group :
    go2ActionScaleAt hipJointPat = go2ActionScaleAt thighJointPat ∧
    go2ActionScaleAt hipJointPat =
      some (ACTION_SCALE_MULTIPLIER * (23.7 / STIFFNESS_HIP)) := by
  rw [go2ActionScaleAt, go2ActionScaleAt, go2_action_scale_eq]
  refine ⟨?_, ?_⟩ <;>
    simp [List.lookup, hipJointPat, thighJointPat, calfJointPat]

end Go2
